import Mathlib

/-!
Shallow embedding of the service worker `src/sw.js` of storymap-pwa.

The service worker is event-driven JavaScript.  We embed each event
listener as a pure Lean function:

* the Cache Storage state (`caches`) is an explicit association list of
  named stores, each store an association list from request keys (URLs)
  to responses;
* the network is an oracle argument: `Option Response`, `none` meaning
  the fetch rejected;
* asynchronous, fire-and-forget `cache.put` side effects are modelled as
  part of the returned state (the spec reads them as "eventually
  present");
* promise rejection that propagates to the caller is `Except.error ()`.
-/

set_option autoImplicit false

namespace StoryMapSW

/-- ResponseType mirrors the `type` field of a JS `Response`:
`basic` for same-origin responses, `cors` for cross-origin CORS
responses, `defaultType` for responses built with the `Response`
constructor (JS name: "default"), `errorType` for network-error
responses (JS name: "error"), `crossOrigin` for responses the page may
not inspect (JS name: "opaque" / "opaqueredirect"). -/
inductive ResponseType where
  | basic
  | cors
  | defaultType
  | errorType
  | crossOrigin
  deriving DecidableEq, Repr

/-- Response models a JS `Response` value: status code, body text,
header list, and the `type` marker. -/
structure Response where
  status : Nat
  body : String
  headers : List (String × String)
  resType : ResponseType
  deriving DecidableEq, Repr

/-- ResponseInit models the options bag of `new Response(body, init)`:
an optional explicit status and a header list. -/
structure ResponseInit where
  status : Option Nat
  headers : List (String × String)
  deriving DecidableEq, Repr

/-- mkResponse models the JS `Response` constructor: when `init` gives
no explicit status the spec default 200 applies, and a constructed
response has type "default". -/
def mkResponse (body : String) (init : ResponseInit) : Response :=
  { status := init.status.getD 200
    body := body
    headers := init.headers
    resType := ResponseType.defaultType }

/-- Request models the intercepted `FetchEvent.request`: method, full
URL (the cache key), and the origin that `new URL(request.url)` derives
from the URL. -/
structure Request where
  method : String
  url : String
  origin : String
  deriving DecidableEq, Repr

/-- Store is the content of a single named cache: an association list
from request keys to responses, first match wins. -/
abbrev Store := List (String × Response)

/-- CacheState is the whole Cache Storage: named stores in creation
order. -/
abbrev CacheState := List (String × Store)

/-- assocGet is lookup in a store, first matching key wins (as
`cache.match`). -/
def assocGet : Store → String → Option Response
  | [], _ => none
  | (k, r) :: t, key => if k = key then some r else assocGet t key

/-- assocPut models `cache.put`: overwrite the entry of an existing key,
or append a new entry. -/
def assocPut : Store → String → Response → Store
  | [], key, resp => [(key, resp)]
  | (k, r) :: t, key, resp =>
      if k = key then (key, resp) :: t else (k, r) :: assocPut t key resp

/-- findStore looks a named store up in the cache state. -/
def findStore : CacheState → String → Option Store
  | [], _ => none
  | (n, s) :: t, name => if n = name then some s else findStore t name

/-- cacheLookup reads one entry of one named store. -/
def cacheLookup (cs : CacheState) (name key : String) : Option Response :=
  match findStore cs name with
  | none => none
  | some s => assocGet s key

/-- cacheOpenPut models `caches.open(name).then(cache =>
cache.put(key, resp))`: open-or-create the named store and write the
entry. -/
def cacheOpenPut : CacheState → String → String → Response → CacheState
  | [], name, key, resp => [(name, [(key, resp)])]
  | (n, s) :: t, name, key, resp =>
      if n = name then (n, assocPut s key resp) :: t
      else (n, s) :: cacheOpenPut t name key resp

/-- cachesMatch models `caches.match(request)`: search every store in
order and return the first entry stored under the request key. -/
def cachesMatch : CacheState → String → Option Response
  | [], _ => none
  | (_, s) :: t, key =>
      match assocGet s key with
      | some r => some r
      | none => cachesMatch t key

/-- CACHE_NAME from `src/sw.js` (declared but unused by the worker). -/
def CACHE_NAME : String := "storymap-v1"

/-- STATIC_CACHE is the current shell store name from `src/sw.js`. -/
def STATIC_CACHE : String := "storymap-static-v1"

/-- DYNAMIC_CACHE is the current dynamic store name from `src/sw.js`. -/
def DYNAMIC_CACHE : String := "storymap-dynamic-v1"

/-- STATIC_ASSETS is the fixed app-shell URL list from `src/sw.js`. -/
def STATIC_ASSETS : List String :=
  ["/", "/index.html", "/style.css", "/main.js", "/favicon.png"]

/-- API_ORIGIN is the origin the fetch listener compares against. -/
def API_ORIGIN : String := "https://story-api.dicoding.dev"

/-- JVal is a primitive JSON value, enough for the offline body the
worker synthesizes. -/
inductive JVal where
  | jbool (b : Bool)
  | jstr (s : String)
  deriving DecidableEq, Repr

/-- JObj is a flat JSON object. -/
abbrev JObj := List (String × JVal)

/-- renderJVal serializes a primitive JSON value as `JSON.stringify`
does. -/
def renderJVal : JVal → String
  | JVal.jbool true => "true"
  | JVal.jbool false => "false"
  | JVal.jstr s => "\"" ++ s ++ "\""

/-- renderJObj serializes a flat JSON object as `JSON.stringify` does
(keys without escape-needing characters). -/
def renderJObj (o : JObj) : String :=
  "\x7b" ++
    String.intercalate ","
      (o.map (fun p => "\"" ++ p.1 ++ "\":" ++ renderJVal p.2)) ++
  "\x7d"

/-- jsonField looks a field up in a flat JSON object. -/
def jsonField (o : JObj) (key : String) : Option JVal :=
  match o with
  | [] => none
  | (k, v) :: t => if k = key then some v else jsonField t key

/-- offlineJson is the object literal passed to `JSON.stringify` in the
offline fallback of the fetch listener. -/
def offlineJson : JObj :=
  [("error", JVal.jbool true),
   ("message", JVal.jstr "Offline - Data tidak tersedia")]

/-- offlineInit is the options bag of the synthesized offline
`Response`: a lone Content-Type header and no explicit status. -/
def offlineInit : ResponseInit :=
  { status := none
    headers := [("Content-Type", "application/json")] }

/-- offlineResponse is the `Response` the fetch listener synthesizes
when the network fails and the cache has no entry. -/
def offlineResponse : Response :=
  mkResponse (renderJObj offlineJson) offlineInit

deriving instance DecidableEq for Except

/-- FetchResult bundles what one run of the fetch listener produces:
the value the caller's promise settles with (`Except.error ()` when the
rejection propagates), the cache state after the write-backs, and
whether `fetch` was called at all. -/
structure FetchResult where
  response : Except Unit Response
  state : CacheState
  networkUsed : Bool
  deriving DecidableEq, Repr

/-- networkFirst is the API branch of the fetch listener: try the
network; on success clone-and-put into DYNAMIC_CACHE and return the
response; on failure serve `caches.match`, else the synthesized offline
response. -/
def networkFirst (req : Request) (net : Option Response)
    (cs : CacheState) : FetchResult :=
  match net with
  | some resp =>
      { response := Except.ok resp
        state := cacheOpenPut cs DYNAMIC_CACHE req.url resp
        networkUsed := true }
  | none =>
      match cachesMatch cs req.url with
      | some cached =>
          { response := Except.ok cached, state := cs, networkUsed := true }
      | none =>
          { response := Except.ok offlineResponse, state := cs
            networkUsed := true }

/-- cacheFirst is the static branch of the fetch listener: serve
`caches.match` if it hits; otherwise fetch, persist into STATIC_CACHE
only when status is 200 and type is "basic", and return the response; a
fetch rejection propagates. -/
def cacheFirst (req : Request) (net : Option Response)
    (cs : CacheState) : FetchResult :=
  match cachesMatch cs req.url with
  | some cached =>
      { response := Except.ok cached, state := cs, networkUsed := false }
  | none =>
      match net with
      | none => { response := Except.error (), state := cs, networkUsed := true }
      | some resp =>
          if resp.status = 200 ∧ resp.resType = ResponseType.basic then
            { response := Except.ok resp
              state := cacheOpenPut cs STATIC_CACHE req.url resp
              networkUsed := true }
          else
            { response := Except.ok resp, state := cs, networkUsed := true }

/-- handleFetch is the fetch listener: non-GET requests are not
intercepted (`none`); GET requests to the API origin take the
network-first branch, every other GET the cache-first branch. -/
def handleFetch (req : Request) (net : Option Response)
    (cs : CacheState) : Option FetchResult :=
  if req.method ≠ "GET" then none
  else if req.origin = API_ORIGIN then some (networkFirst req net cs)
  else some (cacheFirst req net cs)

/-- isOldCache is the deletion predicate of the activate listener:
delete every store whose name is neither current store name. -/
def isOldCache (name : String) : Bool :=
  name != STATIC_CACHE && name != DYNAMIC_CACHE

/-- activateSW is the activate listener: enumerate the store names and
delete every old one, keeping the current shell and dynamic stores. -/
def activateSW (cs : CacheState) : CacheState :=
  cs.filter (fun p => !isOldCache p.1)

/-- addAll models `cache.addAll(urls)` with the network oracle `f`:
fetch every URL and write every result, failing as a whole (with no
write at all) when any single fetch fails. -/
def addAll (f : String → Option Response) : List String → Store → Option Store
  | [], s => some s
  | u :: t, s =>
      match f u with
      | none => none
      | some r => addAll f t (assocPut s u r)

/-- setStore replaces the content of a named store, creating it when
absent. -/
def setStore : CacheState → String → Store → CacheState
  | [], name, s => [(name, s)]
  | (n, old) :: t, name, s =>
      if n = name then (n, s) :: t else (n, old) :: setStore t name s

/-- installSW is the install listener: open STATIC_CACHE and
`addAll(STATIC_ASSETS)`; `none` when the population step failed (the
install promise rejects and no state change happens). -/
def installSW (f : String → Option Response) (cs : CacheState) :
    Option CacheState :=
  match addAll f STATIC_ASSETS ((findStore cs STATIC_CACHE).getD []) with
  | none => none
  | some s => some (setStore cs STATIC_CACHE s)

/-- PushJson models a successfully JSON-decoded push payload: every
field the listener reads is optional (`none` = absent in the JSON). -/
structure PushJson where
  title : Option String
  body : Option String
  message : Option String
  icon : Option String
  image : Option String
  tag : Option String
  data : Option (List (String × String))
  deriving DecidableEq, Repr

/-- PushMsg models `event.data`: `json` is the result of
`event.data.json()` (`none` = the decode threw) and `text` the result
of `event.data.text()`. -/
structure PushMsg where
  json : Option PushJson
  text : String
  deriving DecidableEq, Repr

/-- NotifAction is one entry of the `actions` array handed to
`showNotification`. -/
structure NotifAction where
  action : String
  title : String
  icon : Option String
  deriving DecidableEq, Repr

/-- NotificationOpts is the title plus option bag handed to
`showNotification`. -/
structure NotificationOpts where
  title : String
  body : String
  icon : String
  badge : String
  image : Option String
  tag : String
  data : List (String × String)
  requireInteraction : Bool
  actions : List NotifAction
  vibrate : List Nat
  timestamp : Nat
  deriving DecidableEq, Repr

/-- jsOrStr models `x || d` on a JS string property: an absent property
and the empty string are falsy, every other string is itself. -/
def jsOrStr (v : Option String) (d : String) : String :=
  match v with
  | some s => if s = "" then d else s
  | none => d

/-- jsOrNull models `x || null` on a JS string property. -/
def jsOrNull (v : Option String) : Option String :=
  match v with
  | some s => if s = "" then none else some s
  | none => none

/-- pushActions is the fixed actions array of the push listener. -/
def pushActions : List NotifAction :=
  [{ action := "view", title := "Lihat Cerita", icon := some "/favicon.png" },
   { action := "close", title := "Tutup", icon := none }]

/-- defaultNotification is the initial `notificationData` of the push
listener, combined with the fixed fields `showNotification` always
receives (`now` stands for `Date.now()`). -/
def defaultNotification (now : Nat) : NotificationOpts :=
  { title := "Cerita Baru"
    body := "Ada cerita baru yang ditambahkan!"
    icon := "/favicon.png"
    badge := "/favicon.png"
    image := none
    tag := "new-story"
    data := []
    requireInteraction := false
    actions := pushActions
    vibrate := [200, 100, 200]
    timestamp := now }

/-- handlePush is the push listener: no payload shows the defaults; a
payload whose JSON decode succeeds fills each field with a `||` default;
a payload whose decode throws keeps the defaults and uses the flat text
as body when it is non-empty. -/
def handlePush (evtData : Option PushMsg) (now : Nat) : NotificationOpts :=
  let base := defaultNotification now
  match evtData with
  | none => base
  | some msg =>
      match msg.json with
      | some d =>
          { base with
            title := jsOrStr d.title "Cerita Baru"
            body := jsOrStr d.body
              (jsOrStr d.message "Ada cerita baru yang ditambahkan!")
            icon := jsOrStr d.icon "/favicon.png"
            image := jsOrNull d.image
            tag := jsOrStr d.tag "new-story"
            data := d.data.getD [] }
      | none =>
          if msg.text = "" then base else { base with body := msg.text }

/-- FavRecord models one record of the `favorites` object store: a key
(`id`), an opaque payload, and the `synced` flag. -/
structure FavRecord where
  id : Nat
  data : String
  synced : Bool
  deriving DecidableEq, Repr

/-- putRecord models `objectStore.put(r)`: replace the record stored
under the same key, or add the record when the key is new. -/
def putRecord (db : List FavRecord) (r : FavRecord) : List FavRecord :=
  if db.any (fun x => x.id = r.id) then
    db.map (fun x => if x.id = r.id then r else x)
  else db ++ [r]

/-- markSynced sets the `synced` flag (`favorite.synced = true`). -/
def markSynced (r : FavRecord) : FavRecord := { r with synced := true }

/-- syncStories models the function of the same name: read all
favorites, filter the unsynced ones, and when there are any, put each
of them back with `synced = true`; the second component counts the put
calls issued (zero when the write transaction is never opened). -/
def syncStories (db : List FavRecord) : List FavRecord × Nat :=
  let unsynced := db.filter (fun r => !r.synced)
  if unsynced.length > 0 then
    (unsynced.foldl (fun acc r => putRecord acc (markSynced r)) db,
     unsynced.length)
  else (db, 0)

/-- handleSync is the sync listener: only the tag `sync-stories`
triggers `syncStories`; every other tag is ignored (`none`). -/
def handleSync (tag : String) (db : List FavRecord) :
    Option (List FavRecord × Nat) :=
  if tag = "sync-stories" then some (syncStories db) else none

/-! Helper lemmas about the cache model. -/

theorem assocGet_assocPut_self (s : Store) (k : String) (r : Response) :
    assocGet (assocPut s k r) k = some r := by
  induction s with
  | nil => simp [assocPut, assocGet]
  | cons p t ih =>
      obtain ⟨k0, r0⟩ := p
      by_cases h : k0 = k
      · simp [assocPut, assocGet, h]
      · simp [assocPut, assocGet, h, ih]

theorem assocGet_assocPut_ne (s : Store) (k k0 : String) (r : Response)
    (h : k0 ≠ k) : assocGet (assocPut s k r) k0 = assocGet s k0 := by
  induction s with
  | nil => simp [assocPut, assocGet, Ne.symm h]
  | cons p t ih =>
      obtain ⟨k1, r1⟩ := p
      by_cases h1 : k1 = k
      · subst h1
        simp [assocPut, assocGet, Ne.symm h]
      · simp [assocPut, assocGet, h1, ih]

theorem cacheLookup_cacheOpenPut_self (cs : CacheState) (name k : String)
    (r : Response) :
    cacheLookup (cacheOpenPut cs name k r) name k = some r := by
  induction cs with
  | nil => simp [cacheOpenPut, cacheLookup, findStore, assocGet]
  | cons p t ih =>
      obtain ⟨n0, s0⟩ := p
      by_cases h : n0 = name
      · simp [cacheOpenPut, cacheLookup, findStore, h, assocGet_assocPut_self]
      · simpa [cacheOpenPut, cacheLookup, findStore, h] using ih

theorem cachesMatch_of_unique (cs : CacheState) (name key : String)
    (r : Response) (h1 : cacheLookup cs name key = some r)
    (h2 : ∀ p ∈ cs, p.1 ≠ name → assocGet p.2 key = none) :
    cachesMatch cs key = some r := by
  induction cs with
  | nil => simp [cacheLookup, findStore] at h1
  | cons p t ih =>
      obtain ⟨n0, s0⟩ := p
      by_cases h : n0 = name
      · subst h
        simp [cacheLookup, findStore] at h1
        simp [cachesMatch, h1]
      · have hs : assocGet s0 key = none := h2 (n0, s0) (by simp) h
        have h1t : cacheLookup t name key = some r := by
          simpa [cacheLookup, findStore, h] using h1
        have h2t : ∀ p ∈ t, p.1 ≠ name → assocGet p.2 key = none :=
          fun p hp hn => h2 p (List.mem_cons_of_mem _ hp) hn
        simpa [cachesMatch, hs] using ih h1t h2t

/-! Claims about the fetch listener. -/

/-- C1: for an intercepted GET to the API origin whose network fetch
succeeds, the handler returns the network response and writes a copy of
it into the dynamic store under the request key — with no condition on
the status code. -/
theorem api_network_success_returns_and_caches (req : Request)
    (resp : Response) (cs : CacheState)
    (hm : req.method = "GET") (ho : req.origin = API_ORIGIN) :
    handleFetch req (some resp) cs =
      some { response := Except.ok resp
             state := cacheOpenPut cs DYNAMIC_CACHE req.url resp
             networkUsed := true } ∧
    cacheLookup (cacheOpenPut cs DYNAMIC_CACHE req.url resp)
      DYNAMIC_CACHE req.url = some resp := by
  constructor
  · simp [handleFetch, networkFirst, hm, ho]
  · exact cacheLookup_cacheOpenPut_self cs DYNAMIC_CACHE req.url resp

theorem api_network_success_returns_and_caches_witness :
    handleFetch { method := "GET", url := "https://story-api.dicoding.dev/v1/stories", origin := "https://story-api.dicoding.dev" }
        (some { status := 500, body := "boom", headers := [], resType := ResponseType.cors }) [] =
      some { response := Except.ok { status := 500, body := "boom", headers := [], resType := ResponseType.cors }
             state := cacheOpenPut [] DYNAMIC_CACHE "https://story-api.dicoding.dev/v1/stories"
               { status := 500, body := "boom", headers := [], resType := ResponseType.cors }
             networkUsed := true } ∧
    cacheLookup (cacheOpenPut [] DYNAMIC_CACHE "https://story-api.dicoding.dev/v1/stories"
        { status := 500, body := "boom", headers := [], resType := ResponseType.cors })
      DYNAMIC_CACHE "https://story-api.dicoding.dev/v1/stories" =
      some { status := 500, body := "boom", headers := [], resType := ResponseType.cors } :=
  api_network_success_returns_and_caches _ _ _ rfl rfl

/-- C2: for an intercepted GET to the API origin whose network fetch
fails with no prior cached entry, the handler returns the synthesized
offline response, whose body is the JSON rendering of
the object with error true and the Indonesian offline message; and an
API-classified request never settles with a raw failure. -/
theorem api_offline_without_cache_returns_json (req : Request)
    (cs : CacheState) (hm : req.method = "GET") (ho : req.origin = API_ORIGIN)
    (hmiss : cachesMatch cs req.url = none) :
    handleFetch req none cs =
      some { response := Except.ok offlineResponse, state := cs
             networkUsed := true } ∧
    offlineResponse.body = renderJObj offlineJson ∧
    offlineResponse.body =
      "\x7b\"error\":true,\"message\":\"Offline - Data tidak tersedia\"\x7d" ∧
    (∀ net : Option Response, ∃ r : Response,
      (handleFetch req net cs).map FetchResult.response =
        some (Except.ok r)) := by
  refine ⟨by simp [handleFetch, networkFirst, hm, ho, hmiss], rfl, by decide, ?_⟩
  intro net
  cases net with
  | none =>
      exact ⟨offlineResponse, by simp [handleFetch, networkFirst, hm, ho, hmiss]⟩
  | some resp =>
      exact ⟨resp, by simp [handleFetch, networkFirst, hm, ho]⟩

theorem api_offline_without_cache_returns_json_witness :
    handleFetch { method := "GET", url := "https://story-api.dicoding.dev/v1/stories", origin := "https://story-api.dicoding.dev" } none [] =
      some { response := Except.ok offlineResponse, state := []
             networkUsed := true } ∧
    offlineResponse.body = renderJObj offlineJson ∧
    offlineResponse.body =
      "\x7b\"error\":true,\"message\":\"Offline - Data tidak tersedia\"\x7d" ∧
    (∀ net : Option Response, ∃ r : Response,
      (handleFetch { method := "GET", url := "https://story-api.dicoding.dev/v1/stories", origin := "https://story-api.dicoding.dev" } net []).map
          FetchResult.response = some (Except.ok r)) :=
  api_offline_without_cache_returns_json _ _ rfl rfl rfl

/-- C3: for an intercepted GET to the API origin whose network fetch
fails, when the dynamic store holds an entry for the request key (and no
other store holds that key, which is all the worker ever produces for
API keys), the handler returns that stored entry unchanged and touches
nothing — the model has no notion of age, so no staleness check
exists. -/
theorem api_offline_with_cache_returns_prior_entry (req : Request)
    (cs : CacheState) (cached : Response)
    (hm : req.method = "GET") (ho : req.origin = API_ORIGIN)
    (hdyn : cacheLookup cs DYNAMIC_CACHE req.url = some cached)
    (honly : ∀ p ∈ cs, p.1 ≠ DYNAMIC_CACHE → assocGet p.2 req.url = none) :
    handleFetch req none cs =
      some { response := Except.ok cached, state := cs, networkUsed := true } := by
  have hmatch : cachesMatch cs req.url = some cached :=
    cachesMatch_of_unique cs DYNAMIC_CACHE req.url cached hdyn honly
  simp [handleFetch, networkFirst, hm, ho, hmatch]

theorem api_offline_with_cache_returns_prior_entry_witness :
    handleFetch { method := "GET", url := "https://story-api.dicoding.dev/v1/stories", origin := "https://story-api.dicoding.dev" } none
        [(DYNAMIC_CACHE, [("https://story-api.dicoding.dev/v1/stories",
          { status := 200, body := "stories", headers := [], resType := ResponseType.cors })])] =
      some { response := Except.ok
               { status := 200, body := "stories", headers := [], resType := ResponseType.cors }
             state := [(DYNAMIC_CACHE, [("https://story-api.dicoding.dev/v1/stories",
               { status := 200, body := "stories", headers := [], resType := ResponseType.cors })])]
             networkUsed := true } :=
  api_offline_with_cache_returns_prior_entry _ _ _ rfl rfl rfl (by decide)

/-- C4: for an intercepted GET not classified as API-origin with a
matching store entry, the handler returns exactly the stored entry, the
state is untouched, and the network is not used — the result is the
same for every network oracle. -/
theorem static_cache_hit_no_network (req : Request) (cs : CacheState)
    (cached : Response) (net : Option Response)
    (hm : req.method = "GET") (ho : req.origin ≠ API_ORIGIN)
    (hhit : cachesMatch cs req.url = some cached) :
    handleFetch req net cs =
      some { response := Except.ok cached, state := cs, networkUsed := false } := by
  simp [handleFetch, cacheFirst, hm, ho, hhit]

theorem static_cache_hit_no_network_witness :
    handleFetch { method := "GET", url := "/style.css", origin := "https://storymap.example" }
        (some { status := 200, body := "other", headers := [], resType := ResponseType.basic })
        [(STATIC_CACHE, [("/style.css",
          { status := 200, body := "body", headers := [], resType := ResponseType.basic })])] =
      some { response := Except.ok
               { status := 200, body := "body", headers := [], resType := ResponseType.basic }
             state := [(STATIC_CACHE, [("/style.css",
               { status := 200, body := "body", headers := [], resType := ResponseType.basic })])]
             networkUsed := false } :=
  static_cache_hit_no_network _ _ _ _ rfl (by decide) rfl

/-- C5: on a cache-first miss with a successful network fetch, the
response is returned in both cases, and the state gains the entry in
STATIC_CACHE exactly when the response has status 200 and type "basic";
otherwise the state is untouched. -/
theorem static_miss_caches_iff_ok_basic (req : Request) (cs : CacheState)
    (resp : Response) (hm : req.method = "GET") (ho : req.origin ≠ API_ORIGIN)
    (hmiss : cachesMatch cs req.url = none) :
    (resp.status = 200 ∧ resp.resType = ResponseType.basic →
      handleFetch req (some resp) cs =
        some { response := Except.ok resp
               state := cacheOpenPut cs STATIC_CACHE req.url resp
               networkUsed := true } ∧
      cacheLookup (cacheOpenPut cs STATIC_CACHE req.url resp)
        STATIC_CACHE req.url = some resp) ∧
    (¬(resp.status = 200 ∧ resp.resType = ResponseType.basic) →
      handleFetch req (some resp) cs =
        some { response := Except.ok resp, state := cs, networkUsed := true }) := by
  constructor
  · intro hok
    exact ⟨by simp [handleFetch, cacheFirst, hm, ho, hmiss, hok],
      cacheLookup_cacheOpenPut_self cs STATIC_CACHE req.url resp⟩
  · intro hbad
    simp [handleFetch, cacheFirst, hm, ho, hmiss, hbad]

theorem static_miss_caches_iff_ok_basic_witness :
    (({ status := 200, body := "asset", headers := [], resType := ResponseType.basic } : Response).status = 200 ∧
      ({ status := 200, body := "asset", headers := [], resType := ResponseType.basic } : Response).resType = ResponseType.basic →
      handleFetch { method := "GET", url := "/main.js", origin := "https://storymap.example" }
          (some { status := 200, body := "asset", headers := [], resType := ResponseType.basic }) [] =
        some { response := Except.ok { status := 200, body := "asset", headers := [], resType := ResponseType.basic }
               state := cacheOpenPut [] STATIC_CACHE "/main.js"
                 { status := 200, body := "asset", headers := [], resType := ResponseType.basic }
               networkUsed := true } ∧
      cacheLookup (cacheOpenPut [] STATIC_CACHE "/main.js"
          { status := 200, body := "asset", headers := [], resType := ResponseType.basic })
        STATIC_CACHE "/main.js" =
        some { status := 200, body := "asset", headers := [], resType := ResponseType.basic }) ∧
    (¬(({ status := 200, body := "asset", headers := [], resType := ResponseType.basic } : Response).status = 200 ∧
        ({ status := 200, body := "asset", headers := [], resType := ResponseType.basic } : Response).resType = ResponseType.basic) →
      handleFetch { method := "GET", url := "/main.js", origin := "https://storymap.example" }
          (some { status := 200, body := "asset", headers := [], resType := ResponseType.basic }) [] =
        some { response := Except.ok { status := 200, body := "asset", headers := [], resType := ResponseType.basic }
               state := [], networkUsed := true }) :=
  static_miss_caches_iff_ok_basic _ _ _ rfl (by decide) rfl

/-! Lemmas and claims about the lifecycle listeners. -/

theorem not_isOldCache_iff (n : String) :
    (!isOldCache n) = true ↔ (n = STATIC_CACHE ∨ n = DYNAMIC_CACHE) := by
  simp [isOldCache]

theorem findStore_activateSW_old (cs : CacheState) (name : String)
    (h : isOldCache name = true) :
    findStore (activateSW cs) name = none := by
  induction cs with
  | nil => simp [activateSW, findStore]
  | cons p t ih =>
      obtain ⟨n0, s0⟩ := p
      by_cases hk : (!isOldCache n0) = true
      · have hne : n0 ≠ name := by
          intro he
          subst he
          simp [h] at hk
        simpa [activateSW, List.filter_cons, hk, findStore, hne]
          using ih
      · simpa [activateSW, List.filter_cons, hk] using ih

/-- C6: the activate listener deletes every store whose name is not a
current store name, keeps every current-version store with its entries,
and running it twice equals running it once. -/
theorem activate_deletes_old_keeps_current_idempotent (cs : CacheState) :
    (∀ p ∈ activateSW cs, p.1 = STATIC_CACHE ∨ p.1 = DYNAMIC_CACHE) ∧
    (∀ p ∈ cs, (p.1 = STATIC_CACHE ∨ p.1 = DYNAMIC_CACHE) →
      p ∈ activateSW cs) ∧
    (∀ name, isOldCache name = true →
      findStore (activateSW cs) name = none) ∧
    activateSW (activateSW cs) = activateSW cs := by
  refine ⟨?_, ?_, ?_, ?_⟩
  · intro p hp
    have h := List.mem_filter.mp hp
    exact (not_isOldCache_iff p.1).mp h.2
  · intro p hp hcur
    exact List.mem_filter.mpr ⟨hp, (not_isOldCache_iff p.1).mpr hcur⟩
  · intro name h
    exact findStore_activateSW_old cs name h
  · simp [activateSW, List.filter_filter]

theorem addAll_eq_none_iff (f : String → Option Response) :
    ∀ (urls : List String) (s : Store),
      (addAll f urls s = none ↔ ∃ u ∈ urls, f u = none) := by
  intro urls
  induction urls with
  | nil => intro s; simp [addAll]
  | cons u t ih =>
      intro s
      cases hfu : f u with
      | none => simp [addAll, hfu]
      | some r => simp [addAll, hfu, ih]

theorem addAll_get_of_not_mem (f : String → Option Response) :
    ∀ (urls : List String) (s s' : Store) (k : String),
      addAll f urls s = some s' → k ∉ urls →
      assocGet s' k = assocGet s k := by
  intro urls
  induction urls with
  | nil =>
      intro s s' k h hk
      simp [addAll] at h
      subst h
      rfl
  | cons u t ih =>
      intro s s' k h hk
      cases hfu : f u with
      | none => simp [addAll, hfu] at h
      | some r =>
          simp [addAll, hfu] at h
          have hkt : k ∉ t := fun hm => hk (List.mem_cons_of_mem _ hm)
          have hku : k ≠ u := fun he => hk (by simp [he])
          rw [ih _ _ _ h hkt, assocGet_assocPut_ne _ _ _ _ hku]

theorem addAll_get_of_mem (f : String → Option Response) :
    ∀ (urls : List String) (s s' : Store),
      urls.Nodup → addAll f urls s = some s' →
      ∀ u ∈ urls, assocGet s' u = f u := by
  intro urls
  induction urls with
  | nil =>
      intro s s' _ _ u hu
      simp at hu
  | cons u t ih =>
      intro s s' hnd h v hv
      obtain ⟨hu_not, hndt⟩ := List.nodup_cons.mp hnd
      cases hfu : f u with
      | none => simp [addAll, hfu] at h
      | some r =>
          simp [addAll, hfu] at h
          rcases List.mem_cons.mp hv with rfl | hvt
          · rw [addAll_get_of_not_mem f t _ _ _ h hu_not,
              assocGet_assocPut_self, hfu]
          · exact ih _ _ hndt h v hvt

theorem findStore_setStore_self (cs : CacheState) (name : String) (s : Store) :
    findStore (setStore cs name s) name = some s := by
  induction cs with
  | nil => simp [setStore, findStore]
  | cons p t ih =>
      obtain ⟨n0, s0⟩ := p
      by_cases h : n0 = name
      · simp [setStore, findStore, h]
      · simp [setStore, findStore, h, ih]

theorem STATIC_ASSETS_nodup : STATIC_ASSETS.Nodup := by decide

/-- C7: shell population at install is atomic-or-nothing over
STATIC_ASSETS: it fails exactly when fetching some listed resource
fails (and then changes nothing), and on success every listed resource
is present in the shell store with its fetched response. -/
theorem install_addAll_atomic (f : String → Option Response)
    (cs : CacheState) :
    (installSW f cs = none ↔ ∃ u ∈ STATIC_ASSETS, f u = none) ∧
    (∀ cs', installSW f cs = some cs' →
      ∀ u ∈ STATIC_ASSETS, cacheLookup cs' STATIC_CACHE u = f u) := by
  have hiff := addAll_eq_none_iff f STATIC_ASSETS
    ((findStore cs STATIC_CACHE).getD [])
  constructor
  · unfold installSW
    cases h : addAll f STATIC_ASSETS ((findStore cs STATIC_CACHE).getD []) with
    | none => simpa using hiff.mp h
    | some st =>
        have hne : ¬∃ u ∈ STATIC_ASSETS, f u = none := by
          intro hex
          rw [hiff.mpr hex] at h
          cases h
        simp [hne]
  · intro cs' h u hu
    unfold installSW at h
    cases ha : addAll f STATIC_ASSETS ((findStore cs STATIC_CACHE).getD []) with
    | none => rw [ha] at h; cases h
    | some st =>
        rw [ha] at h
        have hcs : cs' = setStore cs STATIC_CACHE st := by
          cases h
          rfl
        subst hcs
        rw [cacheLookup, findStore_setStore_self]
        exact addAll_get_of_mem f STATIC_ASSETS _ _ STATIC_ASSETS_nodup ha u hu

/-- C10: the synthesized offline response is built from an options bag
with no explicit status and a lone Content-Type header, the `Response`
constructor defaults a missing status to 200, so the offline response
carries status 200 and is recognizable only by the error field of its
JSON body. -/
theorem offline_response_status_default_200 :
    offlineResponse = mkResponse (renderJObj offlineJson) offlineInit ∧
    offlineInit.status = none ∧
    offlineInit.headers = [("Content-Type", "application/json")] ∧
    (∀ (b : String) (init : ResponseInit), init.status = none →
      (mkResponse b init).status = 200) ∧
    offlineResponse.status = 200 ∧
    jsonField offlineJson "error" = some (JVal.jbool true) := by
  refine ⟨rfl, rfl, rfl, ?_, rfl, by decide⟩
  intro b init h
  simp [mkResponse, h]

/-! Lemmas and claims about the push listener. -/

theorem jsOrStr_ne_empty (v : Option String) (d : String) (hd : d ≠ "") :
    jsOrStr v d ≠ "" := by
  cases v with
  | none => exact hd
  | some s =>
      by_cases h : s = ""
      · simpa [jsOrStr, h] using hd
      · simp [jsOrStr, h]

/-- C8: a push payload decoding as JSON with title T and body B shows a
notification with title T, body B and the untouched default icon and
badge; an absent payload shows the default notification; a payload
whose JSON decode throws keeps the defaults and shows the flat text as
body; and every possible input yields a displayable (non-empty-titled)
notification. -/
theorem push_notification_dispatch (T B txt : String) (now : Nat)
    (hT : T ≠ "") (hB : B ≠ "") (htxt : txt ≠ "") :
    handlePush (some ⟨some ⟨some T, some B, none, none, none, none, none⟩, txt⟩) now =
      { defaultNotification now with title := T, body := B } ∧
    (defaultNotification now).icon = "/favicon.png" ∧
    (defaultNotification now).badge = "/favicon.png" ∧
    handlePush none now = defaultNotification now ∧
    (defaultNotification now).title = "Cerita Baru" ∧
    (defaultNotification now).body = "Ada cerita baru yang ditambahkan!" ∧
    handlePush (some { json := none, text := txt }) now =
      { defaultNotification now with body := txt } ∧
    (∀ d : Option PushMsg, (handlePush d now).title ≠ "") := by
  refine ⟨?_, rfl, rfl, rfl, rfl, rfl, ?_, ?_⟩
  · simp [handlePush, defaultNotification, jsOrStr, jsOrNull, hT, hB]
  · simp [handlePush, htxt]
  · intro d
    cases d with
    | none => simp [handlePush, defaultNotification]
    | some msg =>
        cases hj : msg.json with
        | some dj =>
            simpa [handlePush, hj] using
              jsOrStr_ne_empty dj.title "Cerita Baru" (by decide)
        | none =>
            by_cases ht : msg.text = "" <;>
              simp [handlePush, hj, ht, defaultNotification]

theorem push_notification_dispatch_witness :
    handlePush (some ⟨some ⟨some "T", some "B", none, none, none, none, none⟩, "raw"⟩) 7 =
      { defaultNotification 7 with title := "T", body := "B" } ∧
    (defaultNotification 7).icon = "/favicon.png" ∧
    (defaultNotification 7).badge = "/favicon.png" ∧
    handlePush none 7 = defaultNotification 7 ∧
    (defaultNotification 7).title = "Cerita Baru" ∧
    (defaultNotification 7).body = "Ada cerita baru yang ditambahkan!" ∧
    handlePush (some { json := none, text := "raw" }) 7 =
      { defaultNotification 7 with body := "raw" } ∧
    (∀ d : Option PushMsg, (handlePush d 7).title ≠ "") :=
  push_notification_dispatch "T" "B" "raw" 7 (by decide) (by decide) (by decide)

/-! Lemmas and claims about the sync listener. -/

theorem markSynced_id (r : FavRecord) : (markSynced r).id = r.id := rfl

theorem markSynced_idem (r : FavRecord) :
    markSynced (markSynced r) = markSynced r := rfl

theorem markSynced_of_synced (r : FavRecord) (h : r.synced = true) :
    markSynced r = r := by
  cases r
  simp_all [markSynced]

theorem foldl_putRecord_markSynced :
    ∀ (l db : List FavRecord),
      (db.map FavRecord.id).Nodup →
      (l.map FavRecord.id).Nodup →
      (∀ r ∈ l, r ∈ db) →
      l.foldl (fun acc r => putRecord acc (markSynced r)) db =
        db.map (fun x =>
          if x.id ∈ l.map FavRecord.id then markSynced x else x) := by
  intro l
  induction l with
  | nil =>
      intro db _ _ _
      simp
  | cons r t ih =>
      intro db hdb hl hsub
      rw [List.map_cons] at hl
      obtain ⟨hrid_not, htnd⟩ := List.nodup_cons.mp hl
      have hrdb : r ∈ db := hsub r (by simp)
      have hany : (db.any (fun x => x.id = (markSynced r).id)) = true := by
        rw [List.any_eq_true]
        exact ⟨r, hrdb, by simp [markSynced_id]⟩
      have hput : putRecord db (markSynced r) =
          db.map (fun x => if x.id = r.id then markSynced x else x) := by
        rw [putRecord, if_pos hany]
        apply List.map_congr_left
        intro x hx
        by_cases hxi : x.id = r.id
        · have hx_eq : x = r := List.inj_on_of_nodup_map hdb hx hrdb hxi
          subst hx_eq
          simp [markSynced_id]
        · simp [markSynced_id, hxi]
      have hid_pres : ∀ x : FavRecord,
          ((if x.id = r.id then markSynced x else x).id) = x.id := by
        intro x
        by_cases hxi : x.id = r.id <;> simp [markSynced_id, hxi]
      have hdb' : (((db.map
          (fun x => if x.id = r.id then markSynced x else x)).map
            FavRecord.id)).Nodup := by
        rw [List.map_map]
        have hcomp : db.map
            (FavRecord.id ∘ (fun x => if x.id = r.id then markSynced x else x)) =
            db.map FavRecord.id :=
          List.map_congr_left (fun x _ => hid_pres x)
        rw [hcomp]
        exact hdb
      have hsub' : ∀ r' ∈ t,
          r' ∈ db.map (fun x => if x.id = r.id then markSynced x else x) := by
        intro r' hr'
        have hr'db : r' ∈ db := hsub r' (List.mem_cons_of_mem _ hr')
        have hne : r'.id ≠ r.id := by
          intro he
          exact hrid_not (he ▸ List.mem_map_of_mem FavRecord.id hr')
        exact List.mem_map.mpr ⟨r', hr'db, by simp [hne]⟩
      calc (r :: t).foldl (fun acc x => putRecord acc (markSynced x)) db
          = t.foldl (fun acc x => putRecord acc (markSynced x))
              (putRecord db (markSynced r)) := rfl
        _ = t.foldl (fun acc x => putRecord acc (markSynced x))
              (db.map (fun x => if x.id = r.id then markSynced x else x)) := by
            rw [hput]
        _ = (db.map (fun x => if x.id = r.id then markSynced x else x)).map
              (fun x => if x.id ∈ t.map FavRecord.id then markSynced x else x) :=
            ih _ hdb' htnd hsub'
        _ = db.map (fun x =>
              if x.id ∈ (r :: t).map FavRecord.id then markSynced x else x) := by
            rw [List.map_map]
            apply List.map_congr_left
            intro x hx
            by_cases hxi : x.id = r.id
            · have hnot : x.id ∉ t.map FavRecord.id := by
                rw [hxi]
                exact hrid_not
              simp [Function.comp, hxi, markSynced_id, hnot, markSynced_idem]
            · simp [Function.comp, hxi, markSynced_id, markSynced_idem]

/-- C9: the sync listener fires only for the tag sync-stories; a replay
over a queue with no unsynced record succeeds with zero writes; a
replay over a queue with N unsynced records issues N writes and ends
with every record marked synced — records already synced keep their
flag (the final queue is the pointwise markSynced image). -/
theorem sync_marks_unsynced (db : List FavRecord)
    (hnd : (db.map FavRecord.id).Nodup) :
    (∀ tag, tag ≠ "sync-stories" → handleSync tag db = none) ∧
    (db.filter (fun r => !r.synced) = [] →
      handleSync "sync-stories" db = some (db, 0)) ∧
    handleSync "sync-stories" db =
      some (db.map markSynced, (db.filter (fun r => !r.synced)).length) ∧
    (∀ x ∈ db.map markSynced, x.synced = true) := by
  have hnd2 : ((db.filter (fun r => !r.synced)).map FavRecord.id).Nodup :=
    hnd.sublist ((List.filter_sublist db).map FavRecord.id)
  have hsub : ∀ r ∈ db.filter (fun r => !r.synced), r ∈ db :=
    fun r hr => (List.mem_filter.mp hr).1
  refine ⟨?_, ?_, ?_, ?_⟩
  · intro tag h
    simp [handleSync, h]
  · intro h
    simp [handleSync, syncStories, h]
  · by_cases hlen : (db.filter (fun r => !r.synced)).length > 0
    · have hfold := foldl_putRecord_markSynced
        (db.filter (fun r => !r.synced)) db hnd hnd2 hsub
      have heq : db.map (fun x =>
          if x.id ∈ (db.filter (fun r => !r.synced)).map FavRecord.id
          then markSynced x else x) = db.map markSynced := by
        apply List.map_congr_left
        intro x hx
        by_cases hs : x.synced
        · by_cases hmemb :
            x.id ∈ (db.filter (fun r => !r.synced)).map FavRecord.id <;>
              simp [hmemb, markSynced_of_synced x hs]
        · have hxu : x ∈ db.filter (fun r => !r.synced) :=
            List.mem_filter.mpr ⟨hx, by simp [hs]⟩
          simp [List.mem_map_of_mem FavRecord.id hxu]
      simp [handleSync, syncStories, hlen, hfold, heq]
    · have h0 : (db.filter (fun r => !r.synced)).length = 0 :=
        Nat.eq_zero_of_not_pos hlen
      have hnil : db.filter (fun r => !r.synced) = [] :=
        List.length_eq_zero.mp h0
      have hall : ∀ x ∈ db, x.synced = true := by
        intro x hx
        have := List.filter_eq_nil_iff.mp hnil x hx
        simpa using this
      have hmapeq : db.map markSynced = db := by
        have h1 : db.map markSynced = db.map (fun x => x) :=
          List.map_congr_left (fun x hx => markSynced_of_synced x (hall x hx))
        simpa using h1
      simp [handleSync, syncStories, hnil, h0, hmapeq]
  · intro x hx
    obtain ⟨y, _, rfl⟩ := List.mem_map.mp hx
    rfl

theorem sync_marks_unsynced_witness :
    (∀ tag, tag ≠ "sync-stories" →
      handleSync tag [⟨1, "a", false⟩, ⟨2, "b", true⟩] = none) ∧
    (([⟨1, "a", false⟩, ⟨2, "b", true⟩] : List FavRecord).filter
        (fun r => !r.synced) = [] →
      handleSync "sync-stories" [⟨1, "a", false⟩, ⟨2, "b", true⟩] =
        some ([⟨1, "a", false⟩, ⟨2, "b", true⟩], 0)) ∧
    handleSync "sync-stories" [⟨1, "a", false⟩, ⟨2, "b", true⟩] =
      some (([⟨1, "a", false⟩, ⟨2, "b", true⟩] : List FavRecord).map markSynced,
        (([⟨1, "a", false⟩, ⟨2, "b", true⟩] : List FavRecord).filter
          (fun r => !r.synced)).length) ∧
    (∀ x ∈ ([⟨1, "a", false⟩, ⟨2, "b", true⟩] : List FavRecord).map markSynced,
      x.synced = true) :=
  sync_marks_unsynced [⟨1, "a", false⟩, ⟨2, "b", true⟩] (by decide)

end StoryMapSW
